import Mathlib

/-!
# Verification of the insurance-premium / patient-record services

A shallow embedding of the two Python services in this repository:

* `app.py` — the insurance-premium feature deriver (`UserInput` with its
  computed fields `bmi`, `lifestyle_risk`, `age_group`, `city_tier`);
* `main.py` — the patient-record CRUD API (`Patient`, `PatientUpdate`, the
  JSON-file-backed store and the endpoint handlers `view`, `view_patient`,
  `sort_patient`, `create_patient`, `update_patient`, `delete_patient`).

Python floats are modelled as exact rationals (`ℚ`); Python's builtin
`round` (banker's rounding, round-half-to-even) is modelled by
`roundHalfEven` / `round2` below.  The persisted JSON document
`patients.json` is modelled as an association list from patient id to a
record of optional fields (`StoredRecord`): a JSON object may lack a key
or carry `null`, and pydantic treats both the same way for a required
field.  An endpoint either returns a value or raises an HTTP error; this
is modelled with `Except ApiError`.  An error raised before `save_data`
leaves the persisted document unchanged, which is captured by `persisted`.
-/

/-- Floor of a rational number, computed from its numerator and
denominator with flooring integer division. -/
def ratFloor (q : ℚ) : ℤ := q.num.fdiv q.den

/-- Python's builtin `round` to an integer: round half to even
(banker's rounding), as documented for the Python builtin. -/
def roundHalfEven (q : ℚ) : ℤ :=
  let n : ℤ := ratFloor q
  let frac : ℚ := q - n
  if frac < 1/2 then n
  else if 1/2 < frac then n + 1
  else if n % 2 = 0 then n else n + 1

/-- Python's `round(x, 2)`: round to two decimal places, half to even. -/
def round2 (q : ℚ) : ℚ := (roundHalfEven (q * 100) : ℚ) / 100

namespace InsurancePremium

/-- `app.py`: `tier_1_cities`. -/
def tier_1_cities : List String :=
  ["Islamabad", "Karachi", "Lahore", "Peshawar", "Quetta", "Rawalpindi", "Faisalabad"]

/-- `app.py`: `tier_2_cities` (verbatim, duplicates included). -/
def tier_2_cities : List String :=
  ["Multan", "Gujranwala", "Hyderabad", "Sialkot", "Bahawalpur", "Sargodha", "Sukkur", "Larkana", "Sheikhupura",
   "Abbottabad", "Jhelum", "Gujrat", "Mardan", "Kasur", "Okara", "Sahiwal", "Turbat", "Mingora", "Nawabshah",
   "Chiniot", "Kohat", "Muzaffarabad", "Gilgit", "Kotli", "Skardu", "Khuzdar", "Bannu", "Gwadar", "Jhang", "Hafizabad",
   "Kamoke", "Jacobabad", "Shikarpur", "Charsadda", "Mansehra", "Narowal", "Vehari", "Layyah", "Attock", "Lodhran",
   "Badin", "Khanewal", "Bhakkar", "Haripur", "Swabi", "Jamshoro", "Gojra", "Chakwal", "Jaranwala", "Khanpur", "Kamalia",
   "Daska", "Nowshera", "Thatta", "Pakpattan", "Jaccobabad", "Samundri", "Muridke", "Mianwali", "Kandhkot", "Shahdadpur",
   "Shahkot", "Arifwala", "Pattoki", "Shikarpur", "Hangu", "Charsadda", "Burewala", "Jatoi"]

/-- The occupations accepted by the `Literal` annotation on
`UserInput.occupation`. -/
def occupations : List String :=
  ["retired", "freelancer", "student", "government_job", "business_owner", "unemployed", "private_job"]

/-- `app.py`: the raw fields of the pydantic model `UserInput`. -/
structure UserInput where
  age : ℤ
  weight : ℚ
  height : ℚ
  income_lpa : ℚ
  smoker : Bool
  city : String
  occupation : String

/-- The field constraints declared on `UserInput`:
`age` with `gt=0, lt=120`, `weight` with `gt=0`, `height` with
`gt=0, lt=2.5`, `income_lpa` with `gt=0`, and `occupation` restricted to
the `Literal` set. -/
def UserInput.Valid (u : UserInput) : Prop :=
  0 < u.age ∧ u.age < 120 ∧ 0 < u.weight ∧ 0 < u.height ∧ u.height < 5/2 ∧
    0 < u.income_lpa ∧ u.occupation ∈ occupations

/-- `app.py`: computed field `bmi = self.weight / (self.height ** 2)`. -/
def UserInput.bmi (u : UserInput) : ℚ := u.weight / u.height ^ 2

/-- `app.py`: computed field `lifestyle_risk`. -/
def UserInput.lifestyle_risk (u : UserInput) : String :=
  if u.smoker = true ∧ 30 < u.bmi then "high"
  else if u.smoker = true ∨ 27 < u.bmi then "medium"
  else "low"

/-- `app.py`: computed field `age_group`. -/
def UserInput.age_group (u : UserInput) : String :=
  if u.age < 25 then "young"
  else if u.age < 45 then "adult"
  else if u.age < 60 then "middle_aged"
  else "senior"

/-- `app.py`: computed field `city_tier`. -/
def UserInput.city_tier (u : UserInput) : ℤ :=
  if u.city ∈ tier_1_cities then 1
  else if u.city ∈ tier_2_cities then 2
  else 3

end InsurancePremium

namespace PatientApi

/-- The genders accepted by the `Literal` annotation on `Patient.gender`. -/
def genders : List String := ["male", "female", "other"]

/-- `main.py`: the raw fields of the pydantic model `Patient`. -/
structure Patient where
  id : String
  name : String
  city : String
  age : ℤ
  gender : String
  height : ℚ
  weight : ℚ
deriving DecidableEq

/-- The field constraints declared on `Patient`: `age` with
`gt=0, lt=120`, the `gender` `Literal` set, `height` with `gt=0`,
`weight` with `gt=0`. -/
def Patient.Valid (p : Patient) : Prop :=
  0 < p.age ∧ p.age < 120 ∧ p.gender ∈ genders ∧ 0 < p.height ∧ 0 < p.weight

/-- `main.py`: computed field
`bmi = round(self.weight / (self.height ** 2), 2)`. -/
def Patient.bmi (p : Patient) : ℚ := round2 (p.weight / p.height ^ 2)

/-- `main.py`: computed field `verdict`, the if/elif chain on `self.bmi`. -/
def Patient.verdict (p : Patient) : String :=
  if p.bmi < 18.5 then "Underweight"
  else if p.bmi < 25 then "Normal"
  else if p.bmi < 30 then "Overweight"
  else "Obese"

/-- The verdict thresholds as a function of a bmi value; `Patient.verdict`
is this function applied to the computed `Patient.bmi`. -/
def bmi_verdict (bmi : ℚ) : String :=
  if bmi < 18.5 then "Underweight"
  else if bmi < 25 then "Normal"
  else if bmi < 30 then "Overweight"
  else "Obese"

/-- A record as persisted in `patients.json`: a JSON object whose keys may
be absent (or `null`).  `Patient.model_dump` writes all eight keys,
including the computed fields `bmi` and `verdict`. -/
structure StoredRecord where
  name : Option String
  city : Option String
  age : Option ℤ
  gender : Option String
  height : Option ℚ
  weight : Option ℚ
  bmi : Option ℚ
  verdict : Option String
deriving DecidableEq

/-- `patient.model_dump(exclude=['id'])`: serialize every field except
`id`; pydantic includes the `@computed_field`s `bmi` and `verdict`. -/
def Patient.model_dump (p : Patient) : StoredRecord :=
  { name := some p.name, city := some p.city, age := some p.age, gender := some p.gender,
    height := some p.height, weight := some p.weight, bmi := some p.bmi, verdict := some p.verdict }

/-- The persisted mapping `patients.json`: patient id → stored record,
in insertion order (Python dicts preserve insertion order). -/
abbrev Store := List (String × StoredRecord)

/-- `patient_id in data` / `data[patient_id]`: key lookup. -/
def lookupId (data : Store) (patient_id : String) : Option StoredRecord :=
  (data.find? fun kv => kv.1 = patient_id).map fun kv => kv.2

/-- `data[patient_id] = r`: Python dict assignment.  An existing key keeps
its position; a new key is appended at the end. -/
def setKey (data : Store) (patient_id : String) (r : StoredRecord) : Store :=
  if data.any fun kv => kv.1 = patient_id then
    data.map fun kv => if kv.1 = patient_id then (patient_id, r) else kv
  else data ++ [(patient_id, r)]

/-- `del data[patient_id]`: remove the key, preserving the order of the
remaining entries. -/
def eraseKey (data : Store) (patient_id : String) : Store :=
  data.filter fun kv => ¬ kv.1 = patient_id

/-- The HTTP errors raised by the handlers in `main.py`:
404 not found, 400 duplicate id, 400 invalid sort field, 400 invalid sort
order, and pydantic's 422 validation error. -/
inductive ApiError where
  | notFound
  | conflict
  | invalidField
  | invalidOrder
  | validationError
deriving DecidableEq

/-- The persisted document after a handler runs on `data`: a handler that
raises an HTTP error does so before `save_data`, so the file keeps its
previous contents. -/
def persisted (data : Store) : Except ApiError Store → Store
  | .ok s => s
  | .error _ => data

/-- `main.py`: `GET /view` — return the whole mapping unmodified. -/
def view (data : Store) : Store := data

/-- `main.py`: `GET /patient/{patient_id}`. -/
def view_patient (data : Store) (patient_id : String) : Except ApiError StoredRecord :=
  match lookupId data patient_id with
  | some r => .ok r
  | none => .error .notFound

/-- `main.py`: `valid_fields = ['height', 'weight', 'bmi']`. -/
def valid_fields : List String := ["height", "weight", "bmi"]

/-- `x.get(sort_by, 0)`: read the sort key from a stored JSON object,
defaulting to `0` when the key is absent. -/
def getField (r : StoredRecord) (field : String) : ℚ :=
  if field = "height" then r.height.getD 0
  else if field = "weight" then r.weight.getD 0
  else if field = "bmi" then r.bmi.getD 0
  else 0

/-- `main.py`: `GET /sort` — validate `sort_by` and `order` (default
`'asc'`), then `sorted(data.values(), key=lambda x: x.get(sort_by, 0),
reverse=(order == 'desc'))`.  Python's `sorted` is stable; `reverse=True`
sorts by the reversed comparison, still stable, which is the stable
insertion sort for the flipped relation. -/
def sort_patient (data : Store) (sort_by : String) (order : String := "asc") :
    Except ApiError (List StoredRecord) :=
  if sort_by ∉ valid_fields then .error .invalidField
  else if order ∉ (["asc", "desc"] : List String) then .error .invalidOrder
  else if order = "desc" then
    .ok (List.insertionSort (fun a b => getField b sort_by ≤ getField a sort_by)
      (data.map fun kv => kv.2))
  else
    .ok (List.insertionSort (fun a b => getField a sort_by ≤ getField b sort_by)
      (data.map fun kv => kv.2))

/-- `Patient(**existing_patient_info)`: pydantic validation of a full
record under the `Patient` model.  Every declared field must be present
and non-null and satisfy its constraint; extra keys (the previously
stored `bmi`/`verdict`) are ignored, as pydantic ignores extras by
default and computed fields cannot be set. -/
def validate_patient (patient_id : String) (r : StoredRecord) : Option Patient :=
  match r.name, r.city, r.age, r.gender, r.height, r.weight with
  | some name, some city, some age, some gender, some height, some weight =>
    if 0 < age ∧ age < 120 ∧ gender ∈ genders ∧ 0 < height ∧ 0 < weight then
      some { id := patient_id, name := name, city := city, age := age, gender := gender,
             height := height, weight := weight }
    else none
  | _, _, _, _, _, _ => none

/-- `main.py`: `POST /create`. -/
def create_patient (data : Store) (patient : Patient) : Except ApiError Store :=
  if (lookupId data patient.id).isSome then .error .conflict
  else .ok (setKey data patient.id patient.model_dump)

/-- `main.py`: the pydantic model `PatientUpdate`, whose fields are all
`Optional` with default `None`.  A field of an incoming JSON body is
either not supplied (`none`, excluded by
`model_dump(exclude_unset=True)`), supplied as an explicit `null`
(`some none`), or supplied with a value (`some (some v)`). -/
structure PatientUpdate where
  name : Option (Option String) := none
  city : Option (Option String) := none
  age : Option (Option ℤ) := none
  gender : Option (Option String) := none
  height : Option (Option ℚ) := none
  weight : Option (Option ℚ) := none
deriving DecidableEq

/-- The merge loop of `update_patient`:
`for key, value in patient_update.model_dump(exclude_unset=True).items():
existing_patient_info[key] = value`.  Only explicitly supplied fields are
written; the previously stored `bmi`/`verdict` keys are untouched. -/
def applyUpdate (u : PatientUpdate) (r : StoredRecord) : StoredRecord :=
  { r with
    name := u.name.getD r.name
    city := u.city.getD r.city
    age := u.age.getD r.age
    gender := u.gender.getD r.gender
    height := u.height.getD r.height
    weight := u.weight.getD r.weight }

/-- `main.py`: `PUT /edit/{patient_id}` — look up, merge the supplied
fields, re-validate the merged record as a full `Patient` (which
recomputes `bmi`/`verdict` on dump), and store the fresh dump. -/
def update_patient (data : Store) (patient_id : String) (u : PatientUpdate) :
    Except ApiError Store :=
  match lookupId data patient_id with
  | none => .error .notFound
  | some existing =>
    match validate_patient patient_id (applyUpdate u existing) with
    | none => .error .validationError
    | some p => .ok (setKey data patient_id p.model_dump)

/-- `main.py`: `DELETE /delete/{patient_id}`. -/
def delete_patient (data : Store) (patient_id : String) : Except ApiError Store :=
  if (lookupId data patient_id).isSome then .ok (eraseKey data patient_id)
  else .error .notFound

/-- Stores reachable from the empty mapping through successful API
mutations only (no external edits of `patients.json`). -/
inductive Reachable : Store → Prop
  | empty : Reachable []
  | create {s s' : Store} {p : Patient} :
      Reachable s → create_patient s p = .ok s' → Reachable s'
  | update {s s' : Store} {patient_id : String} {u : PatientUpdate} :
      Reachable s → update_patient s patient_id u = .ok s' → Reachable s'
  | delete {s s' : Store} {patient_id : String} :
      Reachable s → delete_patient s patient_id = .ok s' → Reachable s'

/-- A stored record whose persisted `bmi` and `verdict` agree with a fresh
computation from its current `height` and `weight`. -/
def FreshDerived (r : StoredRecord) : Prop :=
  ∃ h w : ℚ, r.height = some h ∧ r.weight = some w ∧
    r.bmi = some (round2 (w / h ^ 2)) ∧ r.verdict = some (bmi_verdict (round2 (w / h ^ 2)))

/-- A merged record that satisfies every field constraint of the `Patient`
model: all fields present and non-null, age in 1–119, gender in the
enumerated set, positive height and weight. -/
def SatisfiesConstraints (r : StoredRecord) : Prop :=
  ∃ (n c g : String) (a : ℤ) (h w : ℚ),
    r.name = some n ∧ r.city = some c ∧ r.age = some a ∧ r.gender = some g ∧
    r.height = some h ∧ r.weight = some w ∧
    0 < a ∧ a < 120 ∧ g ∈ genders ∧ 0 < h ∧ 0 < w

/-- A patient used in concrete witnesses. -/
def patient0 : Patient :=
  { id := "P001", name := "Hamza", city := "Lahore", age := 30, gender := "male",
    height := 2, weight := 80 }

/-- The store after creating `patient0` in the empty store. -/
def store1 : Store := [("P001", patient0.model_dump)]

/-- A hand-edited persisted record whose stored `bmi`/`verdict` do not
match its stored `height`/`weight`. -/
def staleRecord : StoredRecord :=
  { name := some "Hamza", city := some "Lahore", age := some 30, gender := some "male",
    height := some 2, weight := some 80, bmi := some 999, verdict := some "Normal" }

/-- A patient of height 1 m, whose computed bmi is `round2` of its
weight; used for the verdict boundary cases. -/
def patientWithBmi (w : ℚ) : Patient :=
  { id := "P003", name := "N", city := "C", age := 30, gender := "male",
    height := 1, weight := w }

/-- A patient with the premium example's height and weight
(90 kg, 1.7 m). -/
def examplePatient : Patient :=
  { id := "P002", name := "N", city := "Lahore", age := 31, gender := "male",
    height := 17/10, weight := 90 }

/-- A two-record store used for concrete sort witnesses. -/
def store2 : Store := [("P001", patient0.model_dump), ("P002", examplePatient.model_dump)]

/-- `patient0` after an update of its weight to 90. -/
def updatedPatient : Patient := { patient0 with weight := 90 }

/-- An update payload supplying no fields at all. -/
def noUpdate : PatientUpdate := {}

/-- An update payload supplying only `weight = 90`. -/
def weightUpdate : PatientUpdate := { weight := some (some 90) }

/-- An update payload supplying only `age = 200`, which the merged-record
re-validation must reject (`age` must be below 120). -/
def badAgeUpdate : PatientUpdate := { age := some (some 200) }

/-- An update payload supplying an explicit `"height": null`. -/
def nullHeightUpdate : PatientUpdate := { height := some none }

end PatientApi

namespace InsurancePremium

/-- The spec example applicant: a smoker with weight 90 kg and
height 1.7 m. -/
def exampleApplicant : UserInput :=
  { age := 31, weight := 90, height := 17/10, income_lpa := 10, smoker := true,
    city := "Lahore", occupation := "private_job" }

/-- An applicant that varies only in its city; the other fields are fixed
valid values. -/
def applicantWithCity (c : String) : UserInput :=
  { age := 30, weight := 70, height := 2, income_lpa := 10, smoker := false,
    city := c, occupation := "student" }

end InsurancePremium

theorem ratFloor_eq_floor (q : ℚ) : ratFloor q = ⌊q⌋ := by
  rw [Rat.floor_def, ratFloor, Int.fdiv_eq_ediv _ (by exact_mod_cast Nat.zero_le _)]

namespace PatientApi

theorem Patient.verdict_eq (p : Patient) : p.verdict = bmi_verdict p.bmi := rfl

theorem Patient.model_dump_fresh (p : Patient) : FreshDerived p.model_dump :=
  ⟨p.height, p.weight, rfl, rfl, rfl, rfl⟩

theorem mem_setKey {s : Store} {patient_id : String} {r : StoredRecord}
    {kv : String × StoredRecord} (h : kv ∈ setKey s patient_id r) :
    kv ∈ s ∨ kv = (patient_id, r) := by
  unfold setKey at h
  split at h
  · obtain ⟨kv', hkv', heq⟩ := List.mem_map.mp h
    by_cases hc : kv'.1 = patient_id
    · right
      rw [if_pos hc] at heq
      exact heq.symm
    · left
      rw [if_neg hc] at heq
      exact heq ▸ hkv'
  · rcases List.mem_append.mp h with h' | h'
    · exact Or.inl h'
    · exact Or.inr (List.mem_singleton.mp h')

theorem lookupId_eq_some {s : Store} {patient_id : String} {r : StoredRecord}
    (h : lookupId s patient_id = some r) : (patient_id, r) ∈ s := by
  unfold lookupId at h
  obtain ⟨kv, hfind, hsnd⟩ := Option.map_eq_some'.mp h
  have hmem := List.mem_of_find?_eq_some hfind
  have hp := List.find?_some hfind
  simp only [decide_eq_true_eq] at hp
  have : kv = (patient_id, r) := by
    obtain ⟨k, v⟩ := kv
    simp_all
  exact this ▸ hmem

theorem lookupId_eq_none {s : Store} {patient_id : String} :
    lookupId s patient_id = none ↔ ∀ kv ∈ s, kv.1 ≠ patient_id := by
  unfold lookupId
  simp [List.find?_eq_none]

theorem setKey_of_lookup_none {s : Store} {patient_id : String} {r : StoredRecord}
    (h : lookupId s patient_id = none) : setKey s patient_id r = s ++ [(patient_id, r)] := by
  unfold setKey
  rw [if_neg]
  simp only [List.any_eq_true, decide_eq_true_eq, not_exists, not_and]
  exact fun kv hkv => lookupId_eq_none.mp h kv hkv

theorem lookupId_append_self {s : Store} {patient_id : String} {r : StoredRecord}
    (h : lookupId s patient_id = none) :
    lookupId (s ++ [(patient_id, r)]) patient_id = some r := by
  unfold lookupId at h ⊢
  rw [List.find?_append]
  simp only [Option.map_eq_none'] at h
  rw [h]
  simp [List.find?]

theorem lookupId_append_other {s : Store} {patient_id : String} {r : StoredRecord}
    (id' : String) (h : id' ≠ patient_id) :
    lookupId (s ++ [(patient_id, r)]) id' = lookupId s id' := by
  unfold lookupId
  rw [List.find?_append]
  have : List.find? (fun kv => decide (kv.1 = id')) [(patient_id, r)] = none := by
    simp [List.find?, Ne.symm h]
  rw [this]
  cases List.find? (fun kv => decide (kv.1 = id')) s <;> rfl

theorem validate_patient_isSome_iff (patient_id : String) (r : StoredRecord) :
    (validate_patient patient_id r).isSome ↔ SatisfiesConstraints r := by
  obtain ⟨n, c, a, g, h, w, b, v⟩ := r
  cases n <;> cases c <;> cases a <;> cases g <;> cases h <;> cases w <;>
    simp [validate_patient, SatisfiesConstraints]

theorem validate_patient_eq_none_iff (patient_id : String) (r : StoredRecord) :
    validate_patient patient_id r = none ↔ ¬ SatisfiesConstraints r := by
  rw [← validate_patient_isSome_iff patient_id r, ← Option.not_isSome_iff_eq_none]

theorem validate_patient_some {patient_id : String} {r : StoredRecord} {p : Patient}
    (hp : validate_patient patient_id r = some p) :
    p.id = patient_id ∧ r.name = some p.name ∧ r.city = some p.city ∧ r.age = some p.age ∧
      r.gender = some p.gender ∧ r.height = some p.height ∧ r.weight = some p.weight ∧
      p.Valid := by
  obtain ⟨n, c, a, g, h, w, b, v⟩ := r
  cases n <;> cases c <;> cases a <;> cases g <;> cases h <;> cases w <;>
    simp only [validate_patient] at hp <;> try exact Option.noConfusion hp
  split at hp
  next hcond =>
    obtain rfl := Option.some_injective _ hp
    exact ⟨rfl, rfl, rfl, rfl, rfl, rfl, rfl, hcond⟩
  next => exact absurd hp (by simp)

theorem reachable_fresh {s : Store} (hs : Reachable s) :
    ∀ kv ∈ s, FreshDerived kv.2 := by
  induction hs with
  | empty => intro kv hkv; exact absurd hkv (List.not_mem_nil kv)
  | create hr heq ih =>
    unfold create_patient at heq
    split at heq
    · exact absurd heq (by simp)
    · obtain rfl := Except.ok.inj heq
      intro kv hkv
      rcases mem_setKey hkv with h | rfl
      · exact ih kv h
      · exact Patient.model_dump_fresh _
  | update hr heq ih =>
    unfold update_patient at heq
    split at heq
    · exact absurd heq (by simp)
    · split at heq
      · exact absurd heq (by simp)
      · obtain rfl := Except.ok.inj heq
        intro kv hkv
        rcases mem_setKey hkv with h | rfl
        · exact ih kv h
        · exact Patient.model_dump_fresh _
  | delete hr heq ih =>
    unfold delete_patient at heq
    split at heq
    · obtain rfl := Except.ok.inj heq
      intro kv hkv
      exact ih kv (List.mem_of_mem_filter hkv)
    · exact absurd heq (by simp)

/-- A stable sort leaves the elements with any fixed sort key in their
original relative order: filtering by a key value commutes with
`insertionSort` for any relation that holds between equal-key elements. -/
theorem insertionSort_filter_key {α : Type} (key : α → ℚ) (r : α → α → Prop)
    [DecidableRel r] (hkey : ∀ a b, key a = key b → r a b) (l : List α) (c : ℚ) :
    (List.insertionSort r l).filter (fun x => key x = c) = l.filter (fun x => key x = c) := by
  have hpair : (l.filter fun x => key x = c).Pairwise r := by
    refine List.pairwise_of_forall_mem_list ?_
    intro a ha b hb
    have ha' := List.of_mem_filter ha
    have hb' := List.of_mem_filter hb
    simp only [decide_eq_true_eq] at ha' hb'
    exact hkey a b (ha'.trans hb'.symm)
  have h1 : List.Sublist (l.filter fun x => key x = c) (List.insertionSort r l) :=
    List.sublist_insertionSort hpair (List.filter_sublist l)
  have h2 : List.Sublist ((l.filter fun x => key x = c).filter fun x => key x = c)
      ((List.insertionSort r l).filter fun x => key x = c) := h1.filter _
  have hself : ((l.filter fun x => key x = c).filter fun x => key x = c) =
      (l.filter fun x => key x = c) := by
    refine List.filter_eq_self.mpr ?_
    intro a ha
    exact (List.mem_filter.mp ha).2
  rw [hself] at h2
  have hlen : (l.filter fun x => key x = c).length =
      ((List.insertionSort r l).filter fun x => key x = c).length :=
    (((List.perm_insertionSort r l).filter _).length_eq).symm
  exact (h2.eq_of_length hlen).symm

end PatientApi

open InsurancePremium PatientApi

theorem bmi_verdict_spec (b : ℚ) :
    (bmi_verdict b = "Underweight" ↔ b < 18.5) ∧
    (bmi_verdict b = "Normal" ↔ 18.5 ≤ b ∧ b < 25) ∧
    (bmi_verdict b = "Overweight" ↔ 25 ≤ b ∧ b < 30) ∧
    (bmi_verdict b = "Obese" ↔ 30 ≤ b) := by
  unfold bmi_verdict
  by_cases h1 : b < 18.5
  · rw [if_pos h1]
    exact ⟨⟨fun _ => h1, fun _ => rfl⟩,
           ⟨fun h' => absurd h' (by decide), fun h' => absurd h1 (not_lt.mpr h'.1)⟩,
           ⟨fun h' => absurd h' (by decide),
            fun h' => absurd h1 (not_lt.mpr (le_trans (by norm_num) h'.1))⟩,
           ⟨fun h' => absurd h' (by decide),
            fun h' => absurd h1 (not_lt.mpr (le_trans (by norm_num) h'))⟩⟩
  · rw [if_neg h1]
    by_cases h2 : b < 25
    · rw [if_pos h2]
      exact ⟨⟨fun h' => absurd h' (by decide), fun h' => absurd h' h1⟩,
             ⟨fun _ => ⟨not_lt.mp h1, h2⟩, fun _ => rfl⟩,
             ⟨fun h' => absurd h' (by decide), fun h' => absurd h2 (not_lt.mpr h'.1)⟩,
             ⟨fun h' => absurd h' (by decide),
              fun h' => absurd h2 (not_lt.mpr (le_trans (by norm_num) h'))⟩⟩
    · rw [if_neg h2]
      by_cases h3 : b < 30
      · rw [if_pos h3]
        exact ⟨⟨fun h' => absurd h' (by decide), fun h' => absurd h' h1⟩,
               ⟨fun h' => absurd h' (by decide), fun h' => absurd h'.2 h2⟩,
               ⟨fun _ => ⟨not_lt.mp h2, h3⟩, fun _ => rfl⟩,
               ⟨fun h' => absurd h' (by decide), fun h' => absurd h3 (not_lt.mpr h')⟩⟩
      · rw [if_neg h3]
        exact ⟨⟨fun h' => absurd h' (by decide),
                fun h' => absurd (lt_trans h' (by norm_num)) h3⟩,
               ⟨fun h' => absurd h' (by decide),
                fun h' => absurd (lt_trans h'.2 (by norm_num)) h3⟩,
               ⟨fun h' => absurd h' (by decide), fun h' => absurd h'.2 h3⟩,
               ⟨fun _ => not_lt.mp h3, fun _ => rfl⟩⟩

/-- C2: `lifestyle_risk` is `"high"` iff the applicant smokes and bmi > 30,
`"medium"` iff (smoker or bmi > 27) but not high — in particular a smoker
with low bmi is at least `"medium"` — and `"low"` otherwise; the example
smoker with weight 90 and height 1.7 has bmi 9000/289 ≈ 31.14 > 30 and
risk `"high"`. -/
theorem C2_lifestyle_risk :
    (∀ u : UserInput,
      (u.lifestyle_risk = "high" ↔ u.smoker = true ∧ 30 < u.bmi) ∧
      (u.lifestyle_risk = "medium" ↔
        (u.smoker = true ∨ 27 < u.bmi) ∧ ¬(u.smoker = true ∧ 30 < u.bmi)) ∧
      (u.lifestyle_risk = "low" ↔ ¬(u.smoker = true ∨ 27 < u.bmi))) ∧
    exampleApplicant.bmi = 9000/289 ∧ 30 < exampleApplicant.bmi ∧
    31.14 < exampleApplicant.bmi ∧ exampleApplicant.bmi < 31.15 ∧
    exampleApplicant.lifestyle_risk = "high" := by
  constructor
  · intro u
    unfold UserInput.lifestyle_risk
    by_cases h1 : u.smoker = true ∧ 30 < u.bmi
    · rw [if_pos h1]
      exact ⟨⟨fun _ => h1, fun _ => rfl⟩,
             ⟨fun hs => absurd hs (by decide), fun hm => absurd h1 hm.2⟩,
             ⟨fun hs => absurd hs (by decide), fun hl => absurd (Or.inl h1.1) hl⟩⟩
    · rw [if_neg h1]
      by_cases h2 : u.smoker = true ∨ 27 < u.bmi
      · rw [if_pos h2]
        exact ⟨⟨fun hs => absurd hs (by decide), fun hh => absurd hh h1⟩,
               ⟨fun _ => ⟨h2, h1⟩, fun _ => rfl⟩,
               ⟨fun hs => absurd hs (by decide), fun hl => absurd h2 hl⟩⟩
      · rw [if_neg h2]
        exact ⟨⟨fun hs => absurd hs (by decide), fun hh => absurd (Or.inl hh.1) h2⟩,
               ⟨fun hs => absurd hs (by decide), fun hm => absurd hm.1 h2⟩,
               ⟨fun _ => h2, fun _ => rfl⟩⟩
  · refine ⟨?_, ?_, ?_, ?_, ?_⟩
    · norm_num [UserInput.bmi, exampleApplicant]
    · norm_num [UserInput.bmi, exampleApplicant]
    · norm_num [UserInput.bmi, exampleApplicant]
    · norm_num [UserInput.bmi, exampleApplicant]
    · unfold UserInput.lifestyle_risk
      rw [if_pos ⟨rfl, by norm_num [UserInput.bmi, exampleApplicant]⟩]

/-- C9: `city_tier` is 1 exactly on exact (case-sensitive) members of the
hard-coded tier-1 list, 2 exactly on exact members of the tier-2 list not
in tier 1, and 3 on every other string; `"Lahore"` → 1, `"Multan"` → 2,
`"Unknown City"` → 3, and no normalization happens (`"lahore"`,
`"LAHORE"`, `"Lahore "` → 3). -/
theorem C9_city_tier :
    (∀ u : UserInput,
      (u.city_tier = 1 ↔ u.city ∈ tier_1_cities) ∧
      (u.city_tier = 2 ↔ u.city ∉ tier_1_cities ∧ u.city ∈ tier_2_cities) ∧
      (u.city_tier = 3 ↔ u.city ∉ tier_1_cities ∧ u.city ∉ tier_2_cities)) ∧
    (applicantWithCity "Lahore").city_tier = 1 ∧
    (applicantWithCity "Multan").city_tier = 2 ∧
    (applicantWithCity "Unknown City").city_tier = 3 ∧
    (applicantWithCity "lahore").city_tier = 3 ∧
    (applicantWithCity "LAHORE").city_tier = 3 ∧
    (applicantWithCity "Lahore ").city_tier = 3 := by
  constructor
  · intro u
    unfold UserInput.city_tier
    by_cases h1 : u.city ∈ tier_1_cities
    · rw [if_pos h1]
      exact ⟨⟨fun _ => h1, fun _ => rfl⟩,
             ⟨fun h' => absurd h' (by decide), fun h' => absurd h1 h'.1⟩,
             ⟨fun h' => absurd h' (by decide), fun h' => absurd h1 h'.1⟩⟩
    · rw [if_neg h1]
      by_cases h2 : u.city ∈ tier_2_cities
      · rw [if_pos h2]
        exact ⟨⟨fun h' => absurd h' (by decide), fun hm => absurd hm h1⟩,
               ⟨fun _ => ⟨h1, h2⟩, fun _ => rfl⟩,
               ⟨fun h' => absurd h' (by decide), fun hn => absurd h2 hn.2⟩⟩
      · rw [if_neg h2]
        exact ⟨⟨fun h' => absurd h' (by decide), fun hm => absurd hm h1⟩,
               ⟨fun h' => absurd h' (by decide), fun hm => absurd hm.2 h2⟩,
               ⟨fun _ => ⟨h1, h2⟩, fun _ => rfl⟩⟩
  · exact ⟨by decide, by decide, by decide, by decide, by decide, by decide⟩

/-- C8: a patient's `verdict` is `"Underweight"` when its computed (rounded)
bmi is below 18.5, `"Normal"` on [18.5, 25), `"Overweight"` on [25, 30)
and `"Obese"` at and above 30, with the boundary bmi values 18.49, 18.5,
24.99, 25, 29.99, 30 classified as the spec states. -/
theorem C8_verdict_thresholds :
    (∀ p : Patient,
      (p.verdict = "Underweight" ↔ p.bmi < 18.5) ∧
      (p.verdict = "Normal" ↔ 18.5 ≤ p.bmi ∧ p.bmi < 25) ∧
      (p.verdict = "Overweight" ↔ 25 ≤ p.bmi ∧ p.bmi < 30) ∧
      (p.verdict = "Obese" ↔ 30 ≤ p.bmi)) ∧
    ((patientWithBmi 18.49).bmi = 18.49 ∧ (patientWithBmi 18.49).verdict = "Underweight") ∧
    ((patientWithBmi 18.5).bmi = 18.5 ∧ (patientWithBmi 18.5).verdict = "Normal") ∧
    ((patientWithBmi 24.99).bmi = 24.99 ∧ (patientWithBmi 24.99).verdict = "Normal") ∧
    ((patientWithBmi 25).bmi = 25 ∧ (patientWithBmi 25).verdict = "Overweight") ∧
    ((patientWithBmi 29.99).bmi = 29.99 ∧ (patientWithBmi 29.99).verdict = "Overweight") ∧
    ((patientWithBmi 30).bmi = 30 ∧ (patientWithBmi 30).verdict = "Obese") := by
  have hchar : ∀ p : Patient,
      (p.verdict = "Underweight" ↔ p.bmi < 18.5) ∧
      (p.verdict = "Normal" ↔ 18.5 ≤ p.bmi ∧ p.bmi < 25) ∧
      (p.verdict = "Overweight" ↔ 25 ≤ p.bmi ∧ p.bmi < 30) ∧
      (p.verdict = "Obese" ↔ 30 ≤ p.bmi) := by
    intro p
    rw [Patient.verdict_eq]
    exact bmi_verdict_spec p.bmi
  have hb : ∀ w : ℚ, (patientWithBmi w).bmi = round2 w := by
    intro w
    unfold Patient.bmi patientWithBmi
    norm_num
  refine ⟨hchar, ⟨?_, ?_⟩, ⟨?_, ?_⟩, ⟨?_, ?_⟩, ⟨?_, ?_⟩, ⟨?_, ?_⟩, ⟨?_, ?_⟩⟩
  · rw [hb]; norm_num [round2, roundHalfEven, ratFloor_eq_floor]
  · exact (hchar _).1.mpr
      (by rw [hb]; norm_num [round2, roundHalfEven, ratFloor_eq_floor])
  · rw [hb]; norm_num [round2, roundHalfEven, ratFloor_eq_floor]
  · exact (hchar _).2.1.mpr
      ⟨by rw [hb]; norm_num [round2, roundHalfEven, ratFloor_eq_floor],
       by rw [hb]; norm_num [round2, roundHalfEven, ratFloor_eq_floor]⟩
  · rw [hb]; norm_num [round2, roundHalfEven, ratFloor_eq_floor]
  · exact (hchar _).2.1.mpr
      ⟨by rw [hb]; norm_num [round2, roundHalfEven, ratFloor_eq_floor],
       by rw [hb]; norm_num [round2, roundHalfEven, ratFloor_eq_floor]⟩
  · rw [hb]; norm_num [round2, roundHalfEven, ratFloor_eq_floor]
  · exact (hchar _).2.2.1.mpr
      ⟨by rw [hb]; norm_num [round2, roundHalfEven, ratFloor_eq_floor],
       by rw [hb]; norm_num [round2, roundHalfEven, ratFloor_eq_floor]⟩
  · rw [hb]; norm_num [round2, roundHalfEven, ratFloor_eq_floor]
  · exact (hchar _).2.2.1.mpr
      ⟨by rw [hb]; norm_num [round2, roundHalfEven, ratFloor_eq_floor],
       by rw [hb]; norm_num [round2, roundHalfEven, ratFloor_eq_floor]⟩
  · rw [hb]; norm_num [round2, roundHalfEven, ratFloor_eq_floor]
  · exact (hchar _).2.2.2.mpr
      (by rw [hb]; norm_num [round2, roundHalfEven, ratFloor_eq_floor])

/-- C7: the premium deriver computes bmi exactly (no rounding: multiplying
back by height² recovers the weight exactly), while the patient deriver
rounds to two decimals; on the same height/weight (90 kg, 1.7 m) the two
derivers disagree (9000/289 vs 31.14). -/
theorem C7_bmi_two_derivers :
    (∀ u : UserInput, u.Valid → u.bmi * u.height ^ 2 = u.weight) ∧
    (∀ p : Patient, p.bmi = round2 (p.weight / p.height ^ 2)) ∧
    exampleApplicant.bmi = 9000/289 ∧
    examplePatient.bmi = 3114/100 ∧
    examplePatient.weight = exampleApplicant.weight ∧
    examplePatient.height = exampleApplicant.height ∧
    exampleApplicant.bmi ≠ examplePatient.bmi := by
  refine ⟨?_, fun p => rfl, ?_, ?_, rfl, rfl, ?_⟩
  · intro u hu
    have h0 : u.height ≠ 0 := ne_of_gt hu.2.2.2.1
    unfold UserInput.bmi
    exact div_mul_cancel₀ _ (pow_ne_zero 2 h0)
  · norm_num [UserInput.bmi, exampleApplicant]
  · norm_num [Patient.bmi, examplePatient, round2, roundHalfEven, ratFloor_eq_floor]
  · norm_num [UserInput.bmi, Patient.bmi, exampleApplicant, examplePatient,
      round2, roundHalfEven, ratFloor_eq_floor]

/-- Witness for C7: the example applicant satisfies the declared input
constraints, and its exactly-computed bmi times height² recovers the
weight. -/
theorem C7_witness :
    exampleApplicant.Valid ∧
    exampleApplicant.bmi * exampleApplicant.height ^ 2 = exampleApplicant.weight := by
  have hv : exampleApplicant.Valid := by
    refine ⟨by norm_num [exampleApplicant], by norm_num [exampleApplicant],
      by norm_num [exampleApplicant], by norm_num [exampleApplicant],
      by norm_num [exampleApplicant], by norm_num [exampleApplicant], by decide⟩
  exact ⟨hv, C7_bmi_two_derivers.1 exampleApplicant hv⟩

/-- Counterexample for C1 as stated: the read operations do not recompute
`bmi`/`verdict` — they return the persisted values verbatim, and the
derived fields are persisted (stored) alongside the raw fields.  On a
persisted record whose stored bmi (999) differs from the fresh
computation `round2 (80 / 2²) = 20`, `GET /patient/P001` returns the
stale stored value. -/
theorem C1_counterexample :
    view_patient [("P001", staleRecord)] "P001" = .ok staleRecord ∧
    staleRecord.height = some 2 ∧ staleRecord.weight = some 80 ∧
    round2 (80 / 2 ^ 2) = 20 ∧ staleRecord.bmi = some 999 ∧
    ¬ FreshDerived staleRecord := by
  refine ⟨rfl, rfl, rfl, by norm_num [round2, roundHalfEven, ratFloor_eq_floor], rfl, ?_⟩
  rintro ⟨h, w, hh, hw, hb, -⟩
  simp only [staleRecord, Option.some.injEq] at hh hw hb
  subst hh
  subst hw
  norm_num [round2, roundHalfEven, ratFloor_eq_floor] at hb

/-- C1 (amended): `bmi` and `verdict` are persisted by `model_dump` and
reads return the stored values without recomputing them (see the
counterexample); however, every mutating operation stores a freshly
computed `bmi`/`verdict`, so on every store reachable through the API's
own operations the records returned by all read operations (list, get,
sort) carry `bmi`/`verdict` equal to a fresh computation
`round2 (weight / height²)` from the record's current height and
weight. -/
theorem C1_reads_fresh_on_reachable {s : Store} (hs : Reachable s) :
    (∀ kv ∈ view s, FreshDerived kv.2) ∧
    (∀ patient_id r, view_patient s patient_id = .ok r → FreshDerived r) ∧
    (∀ field ord l, sort_patient s field ord = .ok l → ∀ r ∈ l, FreshDerived r) := by
  have hfresh := reachable_fresh hs
  refine ⟨hfresh, ?_, ?_⟩
  · intro pid r hvp
    unfold view_patient at hvp
    cases hl : lookupId s pid with
    | none => rw [hl] at hvp; exact absurd hvp (by simp)
    | some r' =>
      rw [hl] at hvp
      obtain rfl := Except.ok.inj hvp
      exact hfresh _ (lookupId_eq_some hl)
  · intro field ord l hsort rr hrr
    unfold sort_patient at hsort
    split at hsort
    · exact absurd hsort (by simp)
    · split at hsort
      · exact absurd hsort (by simp)
      · split at hsort
        · obtain rfl := Except.ok.inj hsort
          simp only [List.mem_insertionSort] at hrr
          obtain ⟨kv, hkv, rfl⟩ := List.mem_map.mp hrr
          exact hfresh _ hkv
        · obtain rfl := Except.ok.inj hsort
          simp only [List.mem_insertionSort] at hrr
          obtain ⟨kv, hkv, rfl⟩ := List.mem_map.mp hrr
          exact hfresh _ hkv

/-- Witness for C1 (amended): the store obtained by creating `patient0` in
the empty store is reachable, and getting the record back yields fresh
derived fields. -/
theorem C1_witness :
    create_patient [] patient0 = .ok store1 ∧
    view_patient store1 "P001" = .ok patient0.model_dump ∧
    FreshDerived patient0.model_dump := by
  refine ⟨rfl, rfl, ?_⟩
  exact (C1_reads_fresh_on_reachable
      (Reachable.create Reachable.empty (rfl : create_patient [] patient0 = .ok store1))).2.1
    "P001" patient0.model_dump rfl

/-- C5: `create` on an id already in the store fails with Conflict and
leaves the persisted store unchanged; on a fresh id it appends the full
dump of the validated patient — derived fields included — under that id
(the id itself is only the key: the stored value is `model_dump`, which
has no id field), leaving every other id's entry unchanged. -/
theorem C5_create_semantics (s : Store) (p : Patient) :
    ((lookupId s p.id).isSome = true →
      create_patient s p = .error .conflict ∧ persisted s (create_patient s p) = s) ∧
    (lookupId s p.id = none →
      create_patient s p = .ok (s ++ [(p.id, p.model_dump)]) ∧
      lookupId (s ++ [(p.id, p.model_dump)]) p.id = some p.model_dump ∧
      (∀ id', id' ≠ p.id → lookupId (s ++ [(p.id, p.model_dump)]) id' = lookupId s id') ∧
      p.model_dump.bmi = some p.bmi ∧ p.model_dump.verdict = some p.verdict) := by
  constructor
  · intro h
    have hc : create_patient s p = .error .conflict := by
      unfold create_patient
      rw [if_pos h]
    exact ⟨hc, by rw [hc]; rfl⟩
  · intro h
    have hc : create_patient s p = .ok (s ++ [(p.id, p.model_dump)]) := by
      unfold create_patient
      rw [if_neg (by simp [h]), setKey_of_lookup_none h]
    exact ⟨hc, lookupId_append_self h, fun id' hne => lookupId_append_other id' hne, rfl, rfl⟩

/-- Witness for C5: creating `patient0` in the empty store appends its
dump; creating it again in the resulting store is a conflict that leaves
the store unchanged. -/
theorem C5_witness :
    (create_patient [] patient0 = .ok ([] ++ [(patient0.id, patient0.model_dump)]) ∧
      lookupId ([] ++ [(patient0.id, patient0.model_dump)]) patient0.id =
        some patient0.model_dump ∧
      (∀ id', id' ≠ patient0.id →
        lookupId ([] ++ [(patient0.id, patient0.model_dump)]) id' = lookupId [] id') ∧
      patient0.model_dump.bmi = some patient0.bmi ∧
      patient0.model_dump.verdict = some patient0.verdict) ∧
    (create_patient store1 patient0 = .error .conflict ∧
      persisted store1 (create_patient store1 patient0) = store1) :=
  ⟨(C5_create_semantics [] patient0).2 rfl, (C5_create_semantics store1 patient0).1 rfl⟩

/-- C4: `update` fails with NotFound exactly when the id is absent, and
with ValidationError exactly when the merged record violates some field
constraint of the `Patient` model (a required field absent or null, age
outside 1–119, gender outside the enumerated set, non-positive height or
weight); on any failure the persisted store is unchanged. -/
theorem C4_update_error_semantics (s : Store) (patient_id : String) (u : PatientUpdate) :
    (update_patient s patient_id u = .error .notFound ↔ lookupId s patient_id = none) ∧
    (update_patient s patient_id u = .error .validationError ↔
      ∃ r, lookupId s patient_id = some r ∧ ¬ SatisfiesConstraints (applyUpdate u r)) ∧
    (∀ e, update_patient s patient_id u = .error e →
      persisted s (update_patient s patient_id u) = s) := by
  refine ⟨?_, ?_, ?_⟩
  · unfold update_patient
    split
    next hl => simp [hl]
    next existing hl =>
      split
      next hv => simp [hl]
      next p hv => simp [hl]
  · unfold update_patient
    split
    next hl => simp [hl]
    next existing hl =>
      split
      next hv =>
        constructor
        · intro _
          exact ⟨existing, hl,
            (validate_patient_eq_none_iff patient_id (applyUpdate u existing)).mp hv⟩
        · intro _
          rfl
      next p hv =>
        constructor
        · intro hcontra
          exact absurd hcontra (by simp)
        · rintro ⟨r', hr', hns⟩
          rw [hl] at hr'
          obtain rfl : existing = r' := Option.some_injective _ hr'
          exact absurd
            ((validate_patient_isSome_iff patient_id (applyUpdate u existing)).mp
              (by rw [hv]; rfl))
            hns
  · intro e he
    rw [he]
    rfl

/-- Witness for C4: updating a missing id in the empty store is NotFound
and leaves the store unchanged; merging `age = 200` onto an existing
record fails re-validation with ValidationError. -/
theorem C4_witness :
    (update_patient [] "P001" noUpdate = .error .notFound ∧
      persisted [] (update_patient [] "P001" noUpdate) = []) ∧
    update_patient store1 "P001" badAgeUpdate = .error .validationError := by
  have h1 := (C4_update_error_semantics [] "P001" noUpdate).1.mpr rfl
  have h3 := (C4_update_error_semantics [] "P001" noUpdate).2.2 .notFound h1
  have h2 : update_patient store1 "P001" badAgeUpdate = .error .validationError := by
    apply (C4_update_error_semantics store1 "P001" badAgeUpdate).2.1.mpr
    refine ⟨patient0.model_dump, rfl, ?_⟩
    rintro ⟨n, c, g, a, h, w, -, -, ha, -, -, -, -, h120, -, -, -⟩
    have h200 : (some (200 : ℤ)) = some a := ha
    have := Option.some_injective _ h200
    omega
  exact ⟨⟨h1, h3⟩, h2⟩

/-- C3: when the id exists and the merged record re-validates, `update`
stores the dump of the re-validated patient: each of the six updatable
fields equals the supplied value when the partial supplies one and the
prior stored value otherwise, and the stored `bmi`/`verdict` are
recomputed from the post-merge height and weight. -/
theorem C3_update_merge (s : Store) (patient_id : String) (u : PatientUpdate)
    (r : StoredRecord) (p : Patient)
    (hr : lookupId s patient_id = some r)
    (hv : validate_patient patient_id (applyUpdate u r) = some p) :
    update_patient s patient_id u = .ok (setKey s patient_id p.model_dump) ∧
    p.model_dump.name = u.name.getD r.name ∧
    p.model_dump.city = u.city.getD r.city ∧
    p.model_dump.age = u.age.getD r.age ∧
    p.model_dump.gender = u.gender.getD r.gender ∧
    p.model_dump.height = u.height.getD r.height ∧
    p.model_dump.weight = u.weight.getD r.weight ∧
    (applyUpdate u r).height = some p.height ∧
    (applyUpdate u r).weight = some p.weight ∧
    p.model_dump.bmi = some (round2 (p.weight / p.height ^ 2)) ∧
    p.model_dump.verdict = some (bmi_verdict (round2 (p.weight / p.height ^ 2))) := by
  obtain ⟨-, hn, hc, ha, hg, hh, hw, -⟩ := validate_patient_some hv
  refine ⟨?_, hn.symm, hc.symm, ha.symm, hg.symm, hh.symm, hw.symm, hh, hw, rfl, rfl⟩
  unfold update_patient
  split
  next hl => rw [hl] at hr; exact Option.noConfusion hr
  next existing hl =>
    rw [hl] at hr
    obtain rfl : existing = r := Option.some_injective _ hr
    split
    next hv' => rw [hv'] at hv; exact Option.noConfusion hv
    next p' hv' =>
      rw [hv'] at hv
      obtain rfl : p' = p := Option.some_injective _ hv
      rfl

/-- Witness for C3: updating only the weight of `patient0` to 90 keeps
every other field and recomputes the derived fields. -/
theorem C3_witness :
    lookupId store1 "P001" = some patient0.model_dump ∧
    validate_patient "P001" (applyUpdate weightUpdate patient0.model_dump) =
      some updatedPatient ∧
    (update_patient store1 "P001" weightUpdate =
        .ok (setKey store1 "P001" updatedPatient.model_dump) ∧
      updatedPatient.model_dump.name = weightUpdate.name.getD patient0.model_dump.name ∧
      updatedPatient.model_dump.city = weightUpdate.city.getD patient0.model_dump.city ∧
      updatedPatient.model_dump.age = weightUpdate.age.getD patient0.model_dump.age ∧
      updatedPatient.model_dump.gender = weightUpdate.gender.getD patient0.model_dump.gender ∧
      updatedPatient.model_dump.height = weightUpdate.height.getD patient0.model_dump.height ∧
      updatedPatient.model_dump.weight = weightUpdate.weight.getD patient0.model_dump.weight ∧
      (applyUpdate weightUpdate patient0.model_dump).height = some updatedPatient.height ∧
      (applyUpdate weightUpdate patient0.model_dump).weight = some updatedPatient.weight ∧
      updatedPatient.model_dump.bmi =
        some (round2 (updatedPatient.weight / updatedPatient.height ^ 2)) ∧
      updatedPatient.model_dump.verdict =
        some (bmi_verdict (round2 (updatedPatient.weight / updatedPatient.height ^ 2)))) :=
  ⟨rfl, rfl,
    C3_update_merge store1 "P001" weightUpdate patient0.model_dump updatedPatient rfl rfl⟩

/-- C10: an update payload that supplies an explicit null for a field is
not treated as leaving the field unset: the null is merged, the merged
record fails full re-validation, the update fails with ValidationError,
and the persisted store is unchanged — no stored field can be cleared to
null through update. -/
theorem C10_explicit_null (s : Store) (patient_id : String) (u : PatientUpdate)
    (r : StoredRecord) (hr : lookupId s patient_id = some r)
    (hn : u.name = some none ∨ u.city = some none ∨ u.age = some none ∨
      u.gender = some none ∨ u.height = some none ∨ u.weight = some none) :
    update_patient s patient_id u = .error .validationError ∧
    persisted s (update_patient s patient_id u) = s := by
  have hnone : validate_patient patient_id (applyUpdate u r) = none := by
    rw [validate_patient_eq_none_iff]
    rintro ⟨n, c, g, a, h, w, h1, h2, h3, h4, h5, h6, -, -, -, -, -⟩
    rcases hn with h' | h' | h' | h' | h' | h'
    · rw [show (applyUpdate u r).name = none by simp [applyUpdate, h']] at h1
      exact Option.noConfusion h1
    · rw [show (applyUpdate u r).city = none by simp [applyUpdate, h']] at h2
      exact Option.noConfusion h2
    · rw [show (applyUpdate u r).age = none by simp [applyUpdate, h']] at h3
      exact Option.noConfusion h3
    · rw [show (applyUpdate u r).gender = none by simp [applyUpdate, h']] at h4
      exact Option.noConfusion h4
    · rw [show (applyUpdate u r).height = none by simp [applyUpdate, h']] at h5
      exact Option.noConfusion h5
    · rw [show (applyUpdate u r).weight = none by simp [applyUpdate, h']] at h6
      exact Option.noConfusion h6
  have herr : update_patient s patient_id u = .error .validationError := by
    unfold update_patient
    split
    next hl => rw [hl] at hr; exact Option.noConfusion hr
    next existing hl =>
      rw [hl] at hr
      obtain rfl : existing = r := Option.some_injective _ hr
      split
      next => rfl
      next p hv' => rw [hv'] at hnone; exact Option.noConfusion hnone
  exact ⟨herr, by rw [herr]; rfl⟩

/-- Witness for C10: an update supplying `"height": null` on an existing
record is rejected with ValidationError and the store is unchanged. -/
theorem C10_witness :
    lookupId store1 "P001" = some patient0.model_dump ∧
    update_patient store1 "P001" nullHeightUpdate = .error .validationError ∧
    persisted store1 (update_patient store1 "P001" nullHeightUpdate) = store1 := by
  have h := C10_explicit_null store1 "P001" nullHeightUpdate patient0.model_dump rfl
    (Or.inr (Or.inr (Or.inr (Or.inr (Or.inl rfl)))))
  exact ⟨rfl, h.1, h.2⟩

/-- C6: for a valid field (height, weight, bmi) and a valid order
(asc/desc, defaulting to asc), `sort` returns a permutation of the
store's records (the records themselves are returned unmutated), ordered
by the chosen field's current value — non-decreasing for asc,
non-increasing for desc — with ties left in the original mapping
iteration order (filtering the output by any fixed key value gives
exactly the input's equal-key records in their original order), and a
record missing the field is keyed as 0 for sorting only. -/
theorem C6_sort_semantics (s : Store) (field ord : String)
    (hf : field ∈ valid_fields) (ho : ord = "asc" ∨ ord = "desc") :
    ∃ l, sort_patient s field ord = .ok l ∧
      List.Perm l (s.map fun kv => kv.2) ∧
      (ord = "asc" → l.Pairwise fun a b => getField a field ≤ getField b field) ∧
      (ord = "desc" → l.Pairwise fun a b => getField b field ≤ getField a field) ∧
      (∀ c : ℚ, l.filter (fun x => getField x field = c) =
        (s.map fun kv => kv.2).filter fun x => getField x field = c) ∧
      (∀ r : StoredRecord, r.height = none → getField r "height" = 0) ∧
      (∀ r : StoredRecord, r.weight = none → getField r "weight" = 0) ∧
      (∀ r : StoredRecord, r.bmi = none → getField r "bmi" = 0) ∧
      sort_patient s field = sort_patient s field "asc" := by
  have hmem : ¬ field ∉ valid_fields := not_not_intro hf
  have hord : ¬ ord ∉ (["asc", "desc"] : List String) :=
    not_not_intro (by rcases ho with h | h <;> simp [h])
  unfold sort_patient
  rw [if_neg hmem, if_neg hord]
  by_cases hd : ord = "desc"
  · rw [if_pos hd]
    refine ⟨_, rfl, List.perm_insertionSort _ _, ?_, ?_, ?_, ?_, ?_, ?_, rfl⟩
    · intro hasc
      exact absurd (hasc.symm.trans hd) (by decide)
    · intro _
      haveI : IsTotal StoredRecord (fun a b => getField b field ≤ getField a field) :=
        ⟨fun a b => le_total _ _⟩
      haveI : IsTrans StoredRecord (fun a b => getField b field ≤ getField a field) :=
        ⟨fun a b c hab hbc => le_trans hbc hab⟩
      exact List.sorted_insertionSort _ _
    · intro c
      exact insertionSort_filter_key (fun x => getField x field) _
        (fun a b hab => le_of_eq hab.symm) _ c
    · intro rr hrr
      simp [getField, hrr]
    · intro rr hrr
      simp [getField, hrr]
    · intro rr hrr
      simp [getField, hrr]
  · rw [if_neg hd]
    refine ⟨_, rfl, List.perm_insertionSort _ _, ?_, ?_, ?_, ?_, ?_, ?_, rfl⟩
    · intro _
      haveI : IsTotal StoredRecord (fun a b => getField a field ≤ getField b field) :=
        ⟨fun a b => le_total _ _⟩
      haveI : IsTrans StoredRecord (fun a b => getField a field ≤ getField b field) :=
        ⟨fun a b c hab hbc => le_trans hab hbc⟩
      exact List.sorted_insertionSort _ _
    · intro habs
      exact absurd habs hd
    · intro c
      exact insertionSort_filter_key (fun x => getField x field) _
        (fun a b hab => le_of_eq hab) _ c
    · intro rr hrr
      simp [getField, hrr]
    · intro rr hrr
      simp [getField, hrr]
    · intro rr hrr
      simp [getField, hrr]

/-- Witness for C6: sorting the two-record store by weight descending. -/
theorem C6_witness :
    ("weight" ∈ valid_fields ∧ ("desc" = "asc" ∨ "desc" = "desc")) ∧
    (∃ l, sort_patient store2 "weight" "desc" = .ok l ∧
      List.Perm l (store2.map fun kv => kv.2) ∧
      ("desc" = "asc" → l.Pairwise fun a b => getField a "weight" ≤ getField b "weight") ∧
      ("desc" = "desc" → l.Pairwise fun a b => getField b "weight" ≤ getField a "weight") ∧
      (∀ c : ℚ, l.filter (fun x => getField x "weight" = c) =
        (store2.map fun kv => kv.2).filter fun x => getField x "weight" = c) ∧
      (∀ r : StoredRecord, r.height = none → getField r "height" = 0) ∧
      (∀ r : StoredRecord, r.weight = none → getField r "weight" = 0) ∧
      (∀ r : StoredRecord, r.bmi = none → getField r "bmi" = 0) ∧
      sort_patient store2 "weight" = sort_patient store2 "weight" "asc") :=
  ⟨⟨by decide, Or.inr rfl⟩, C6_sort_semantics store2 "weight" "desc" (by decide) (Or.inr rfl)⟩

/-- Witness for C2: the characterization applied to the example smoker. -/
theorem C2_witness :
    exampleApplicant.lifestyle_risk = "high" ↔
      exampleApplicant.smoker = true ∧ 30 < exampleApplicant.bmi :=
  (C2_lifestyle_risk.1 exampleApplicant).1

/-- Witness for C8: the characterization applied at the bmi-30 boundary. -/
theorem C8_witness :
    (patientWithBmi 30).verdict = "Obese" ↔ 30 ≤ (patientWithBmi 30).bmi :=
  (C8_verdict_thresholds.1 (patientWithBmi 30)).2.2.2

/-- Witness for C9: the characterization applied to a tier-2 city. -/
theorem C9_witness :
    (applicantWithCity "Multan").city_tier = 2 ↔
      (applicantWithCity "Multan").city ∉ tier_1_cities ∧
        (applicantWithCity "Multan").city ∈ tier_2_cities :=
  (C9_city_tier.1 (applicantWithCity "Multan")).2.1
